import Mathlib

/-
Verification development for the PD_enrollment_letter_generator repository.

The repository exposes two serverless request handlers,
src/api/generatePDFAllEnroll.js (enrollment letters) and
src/api/generateLOA.js (acceptance letters).  Both share a Puppeteer
session manager (getBrowserInstance / cleanup) and a retry-looped PDF
renderer (generatePDF); the enrollment handler additionally runs an
aggregation pipeline (findAssocCourses / findCourseProps) over HubSpot
association and record-detail fetches.

This file gives a shallow embedding of those functions.  External I/O
(HTTP fetches, the rendering engine, the file upload and note creation)
is represented by explicit outcome values handed to the embedded
functions, so that every embedded function is a pure, executable Lean
definition whose control flow mirrors the JavaScript source line by
line.  Dates are carried as epoch-millisecond integers: the JavaScript
code turns every parseable HubSpot date value into a Date and the
claims only depend on presence and ordering of those values, so an
absent or unparseable property is Option.none and a parseable one is
some epoch value.  Rendered date text (Intl.DateTimeFormat output) is
represented by a tagged string determined by the epoch value.
-/

namespace EnrollGen

/-! ## JavaScript string primitives

String.toLowerCase and String.includes are used by the course mapper.
They are re-implemented here by structural recursion over character
lists so that concrete runs reduce inside the kernel.  All strings the
repository feeds them are ASCII apart from the registered-trademark
sign, which toLowerCase leaves unchanged. -/

/-- Lowercases one ASCII letter, leaving every other character unchanged. -/
def jsCharLower (c : Char) : Char :=
  if 'A' ≤ c ∧ c ≤ 'Z' then Char.ofNat (c.toNat + 32) else c

/-- Models String.prototype.toLowerCase on the ASCII data of this repository. -/
def jsToLower (s : String) : String := String.mk (s.data.map jsCharLower)

/-- Does the character list start with the given pattern. -/
def charsStartWith : List Char → List Char → Bool
  | _, [] => true
  | [], _ :: _ => false
  | c :: s, p :: ps => c = p && charsStartWith s ps

/-- Does the character list contain the pattern as a contiguous run. -/
def charsContain : List Char → List Char → Bool
  | [], pat => charsStartWith [] pat
  | s@(_ :: rest), pat => charsStartWith s pat || charsContain rest pat

/-- Models String.prototype.includes. -/
def jsIncludes (s pat : String) : Bool := charsContain s.data pat.data

/-! ## Dates -/

/-- Epoch milliseconds, the value of Date.prototype.getTime. -/
abbrev EpochMs := Int

/-- Models formatDateToLongDate (generatePDFAllEnroll.js) applied to a
parseable date value carried as epoch milliseconds.  The real function
renders the date through Intl.DateTimeFormat in a fixed timezone, which
is platform functionality outside this repository; the rendered text is
represented by a tagged string that depends only on the input.  The JS
function throws on an absent or unparseable value; call sites model
those inputs as Option.none and branch before calling this. -/
def formatDateToLongDate (ms : EpochMs) : String :=
  "LongDate(" ++ toString ms ++ ")"

/-- Models formatEpochMsToLongDate (generateLOA.js) applied to a value
whose Number() conversion is a valid epoch; an absent field gives NaN
and a throw, modelled as Option.none at the call site. -/
def formatEpochMsToLongDate (ms : EpochMs) : String :=
  "LongDate(" ++ toString ms ++ ")"

/-! ## Course and location mappers -/

/-- The ordered course-code table of mapCourse in generatePDFAllEnroll.js.
Object.entries preserves the insertion order of these non-numeric keys,
so the table is an ordered association list. -/
def course_mapper : List (String × String) :=
  [ ( "AFK", "Assessment of Fundemental Knowledge Course" ),
    ( "ACJ", "Assessment of Clinical Judgment Course" ),
    ( "ADT", "Advanced Dental Admission Test Course" ),
    ( "INBDE", "Integrated National Board Dental Examination Course" ),
    ( "BRD", "Virtual OSCE" ),
    ( "Clinical", "NDECC® Clinical Skills Course" ),
    ( "B9", "NDECC® Clinical Skills Course" ),
    ( "Situational", "NDECC® Situational Judgment Course" ),
    ( "SitPractice", "NDECC® Situational Practice Course" ),
    ( "SimPack", "NDECC® Simulation Package Course" ),
    ( "Sim", "NDECC® Simulation Situational Course" ) ]

/-- The course-code table of mapCourse in generateLOA.js: identical to
the enrollment one except for the spelling of the AFK display name. -/
def course_mapper_loa : List (String × String) :=
  [ ( "AFK", "Assessment of Fundamental Knowledge Course" ),
    ( "ACJ", "Assessment of Clinical Judgment Course" ),
    ( "ADT", "Advanced Dental Admission Test Course" ),
    ( "INBDE", "Integrated National Board Dental Examination Course" ),
    ( "BRD", "Virtual OSCE" ),
    ( "Clinical", "NDECC® Clinical Skills Course" ),
    ( "B9", "NDECC® Clinical Skills Course" ),
    ( "Situational", "NDECC® Situational Judgment Course" ),
    ( "SitPractice", "NDECC® Situational Practice Course" ),
    ( "SimPack", "NDECC® Simulation Package Course" ),
    ( "Sim", "NDECC® Simulation Situational Course" ) ]

/-- Case-insensitive first-match substring lookup shared by both mapCourse
versions: iterate the entries in order and return the value of the first
key that occurs, lowercased, inside the lowercased course code. -/
def lookupCourse (table : List (String × String)) (courseID : Option String) : Option String :=
  match courseID with
  | none => none
  | some cid =>
    if cid = "" then none
    else
      (table.find? (fun kv => jsIncludes (jsToLower cid) (jsToLower kv.1))).map
        (fun kv => kv.2)

/-- Models mapCourse of generatePDFAllEnroll.js.  The JS falsy guard
covers both an absent course id (none) and an empty string. -/
def mapCourse (courseID : Option String) : Option String :=
  lookupCourse course_mapper courseID

/-- Models mapCourse of generateLOA.js. -/
def mapCourseLOA (courseID : Option String) : Option String :=
  lookupCourse course_mapper_loa courseID

/-- The location table shared by findLocation in both files. -/
def location_mapper : List (String × String) :=
  [ ( "Mississauga", "200-1515 Matheson Blvd Mississauga, ON L4W 2P5" ),
    ( "B9", "200-1515 Matheson Blvd Mississauga, ON L4W 2P5" ),
    ( "Online", "200-1515 Matheson Blvd Mississauga, ON L4W 2P5" ),
    ( "Vancouver", "522 Seventh Street, Unit 100, New Westminster, BC V3M 5T5" ),
    ( "Montreal", "6540 Chemin de la Côte-de-Liesse Saint-Laurent, QC H4T 1E3" ),
    ( "Calgary", "518 9 Ave SE, Calgary, AB T2G 0S1" ) ]

/-- Models findLocation of generatePDFAllEnroll.js: exact key lookup,
null on a miss (and on an absent location value). -/
def findLocation (location : Option String) : Option String :=
  location.bind (fun l => (location_mapper.find? (fun kv => kv.1 = l)).map (fun kv => kv.2))

/-- Models findLocation of generateLOA.js: exact key lookup, falling back
to the Mississauga entry on a miss (the JS body is
location_mapper[location] with a Mississauga default). -/
def findLocationLOA (location : Option String) : Option String :=
  match findLocation location with
  | some v => some v
  | none => (location_mapper.find? (fun kv => kv.1 = "Mississauga")).map (fun kv => kv.2)

/-! ## Aggregation pipeline (findCourseProps / findAssocCourses) -/

/-- Outcome of one external HTTP request: resolved payload, or a
network/HTTP rejection carrying the error message. -/
inductive Fetch (α : Type) where
  | ok (data : α)
  | err (msg : String)
deriving DecidableEq

/-- The property set findCourseProps requests for one enrollment child
record.  A property that is absent or empty (JS falsy) is none; the
date-valued properties carry their parsed epoch value when parseable. -/
structure CourseProps where
  course_id : Option String := none
  course_name : Option String := none
  course_start_date : Option EpochMs := none
  course_end_date : Option EpochMs := none
  location : Option String := none
  createdate : Option EpochMs := none
deriving DecidableEq

/-- The normalized enrollment record that findCourseProps builds for the
letter: display course name, duration text, mapped facility address,
creation timestamp (Date.getTime) and the source child-record id. -/
structure Course where
  courseID : String
  duration : String
  location : Option String
  createDate : EpochMs
  hubspotId : String
deriving DecidableEq

instance {ε α : Type} [DecidableEq ε] [DecidableEq α] : DecidableEq (Except ε α) :=
  fun x y =>
    match x, y with
    | Except.ok a, Except.ok b =>
      if h : a = b then isTrue (by rw [h]) else
        isFalse (fun he => h (Except.ok.inj he))
    | Except.error a, Except.error b =>
      if h : a = b then isTrue (by rw [h]) else
        isFalse (fun he => h (Except.error.inj he))
    | Except.ok _, Except.error _ => isFalse (fun he => Except.noConfusion he)
    | Except.error _, Except.ok _ => isFalse (fun he => Except.noConfusion he)

/-- Models findCourseProps for one child id, given the outcome of its
detail fetch.  A missing start date, end date or course code resolves to
none (skip); an unknown course code resolves to none; a network/HTTP
rejection of the fetch is rethrown with the child id as context.  Date
formatting of present epoch values always succeeds (the JS parse-failure
branch corresponds to values this embedding keeps as none). -/
def findCourseProps (courseID : String) (fetch : Fetch CourseProps) :
    Except String (Option Course) :=
  match fetch with
  | Fetch.err msg =>
      Except.error ( "Failed fetching course " ++ courseID ++ ": " ++ msg )
  | Fetch.ok props =>
    match props.course_start_date, props.course_end_date, props.course_id with
    | some sd, some ed, some cid =>
      if cid = "" then Except.ok none
      else
        let endDate := formatDateToLongDate ed
        let startDate := formatDateToLongDate sd
        match mapCourse (some cid) with
        | none => Except.ok none
        | some fullCourseName =>
          Except.ok (some
            { courseID := fullCourseName
              duration := startDate ++ " to " ++ endDate
              location := findLocation props.location
              createDate :=
                match props.createdate with
                | some t => t
                | none => 0
              hubspotId := courseID })
    | _, _, _ => Except.ok none

/-- Models Promise.all over the already-settled per-child outcomes:
reject as soon as any element rejected, otherwise resolve to the list of
values.  (Which rejection wins in JS depends on completion timing; the
claims depend only on whether some child rejected, so list order stands
in for completion order.) -/
def promiseAll {α : Type} : List (Except String α) → Except String (List α)
  | [] => Except.ok []
  | Except.error m :: _ => Except.error m
  | Except.ok a :: xs =>
    match promiseAll xs with
    | Except.error m => Except.error m
    | Except.ok rest => Except.ok (a :: rest)

/-- Shape of the association response: results is none when
response.data or response.data.results is absent, otherwise the list of
associated child record ids (r.toObjectId). -/
structure AssocResponse where
  results : Option (List String)

/-- Descending creation-timestamp ordering: the comparator
(a, b) => b.createDate.getTime() - a.createDate.getTime() of the
aggregation sort puts a before b exactly when this relation holds. -/
def createDesc (a b : Course) : Prop := b.createDate ≤ a.createDate

instance : DecidableRel createDesc :=
  fun a b => inferInstanceAs (Decidable (b.createDate ≤ a.createDate))

instance : IsTotal Course createDesc :=
  ⟨fun a b => (le_total b.createDate a.createDate)⟩

instance : IsTrans Course createDesc :=
  ⟨fun _ _ _ h1 h2 => le_trans h2 h1⟩

/-- Models findAssocCourses, taking the association-fetch outcome and
the per-child detail-fetch outcomes as explicit inputs.  Fails on an
association fetch error, on a malformed response, and on an empty
association list; runs the per-child fetches through Promise.all
(fail-fast on any rejection); filters out the null per-child results;
then sorts the survivors by creation timestamp descending and keeps the
first 8.  The JS Array.prototype.sort is stable and its comparator is a
consistent total preorder, so the stable insertion sort computes the
same list. -/
def findAssocCourses (assocFetch : Fetch AssocResponse)
    (childFetch : String → Fetch CourseProps) : Except String (List Course) :=
  match assocFetch with
  | Fetch.err msg =>
      Except.error ( "findAssocCourses failed: Failed fetching associations: " ++ msg )
  | Fetch.ok resp =>
    match resp.results with
    | none =>
        Except.error
          ( "findAssocCourses failed: HubSpot API did not return expected association data" )
    | some allCourses =>
      if allCourses.length = 0 then
        Except.error ( "findAssocCourses failed: Trainee has no valid enrollments" )
      else
        match promiseAll (allCourses.map (fun c => findCourseProps c (childFetch c))) with
        | Except.error msg =>
            Except.error
              ( "findAssocCourses failed: At least one course fetch failed: " ++ msg )
        | Except.ok settled =>
          Except.ok ((List.insertionSort createDesc (settled.filterMap id)).take 8)

/-! ## Browser session manager (getBrowserInstance / cleanup) -/

/-- A cached rendering-engine session handle: the launch it came from and
its liveness flag (Session.connected). -/
structure Browser where
  id : Nat
  connected : Bool
deriving DecidableEq

/-- Models getBrowserInstance: given the module-level cached instance and
the session the environment would produce if puppeteer.launch ran,
returns the new cached instance, the browser handed to the caller, and
whether a launch happened.  The JS guard is
not browserInstance or not browserInstance.connected. -/
def getBrowserInstance (browserInstance : Option Browser) (launched : Browser) :
    Option Browser × Browser × Bool :=
  match browserInstance with
  | none => ( some launched, launched, true )
  | some b =>
    if b.connected = false then ( some launched, launched, true )
    else ( some b, b, false )

/-! ## PDF renderer with retry loop (generatePDF) -/

/-- A PDF byte buffer. -/
abbrev PDF := List Nat

/-- Events observable on the rendering engine. -/
inductive Ev where
  | openPage (attempt : Nat)
  | closePage (attempt : Nat)
  | resetBrowserCache
  | closeBrowser
deriving DecidableEq

/-- External behaviour of one retry-loop iteration of generatePDF:
whether getBrowserInstance yields a connected browser, whether
browser.newPage succeeds, and the outcome of the
setViewport/setContent/page.pdf sequence once a page is open. -/
structure AttemptSpec where
  browserConnected : Bool
  newPageOk : Bool
  pdfResult : Except String PDF

/-- One iteration of the generatePDF try block: a disconnected browser
throws before any page is opened (and the catch clears the cached
instance); a newPage failure opens no page; otherwise the page is opened
and, whether page.pdf succeeds or throws, the page is closed exactly
once (in the try-success path by the finally block, in the failure path
by the catch block, close errors swallowed either way). -/
def runAttempt (n : Nat) (s : AttemptSpec) : Except String PDF × List Ev :=
  if s.browserConnected = false then
    ( Except.error "Browser disconnected", [ Ev.resetBrowserCache ] )
  else if s.newPageOk = false then
    ( Except.error "newPage failed", [] )
  else
    match s.pdfResult with
    | Except.ok pdf => ( Except.ok pdf, [ Ev.openPage n, Ev.closePage n ] )
    | Except.error e => ( Except.error e, [ Ev.openPage n, Ev.closePage n ] )

/-- The while loop of generatePDF, parameterized by the per-attempt
behaviour of the environment.  retries starts at 3 and the attempt
number is 4 - retries; on a failure retries is decremented, the last
error is rethrown when it reaches 0, and otherwise the loop waits
(4 - retries) * 1000 ms, computed after the decrement, before the next
attempt.  Accumulates the waits (in ms, in order) and the event trace.
The fuel-0 equation corresponds to the loop falling through, which is
unreachable from the entry point below. -/
def generatePDFGo (oracle : Nat → AttemptSpec) :
    Nat → List Nat → List Ev → Except String PDF × List Nat × List Ev
  | 0, waits, evs => ( Except.error "while loop exited", waits, evs )
  | r + 1, waits, evs =>
    let n := 4 - (r + 1)
    let step := runAttempt n (oracle n)
    match step.1 with
    | Except.ok pdf => ( Except.ok pdf, waits, evs ++ step.2 )
    | Except.error e =>
      if r = 0 then ( Except.error e, waits, evs ++ step.2 )
      else generatePDFGo oracle r (waits ++ [ (4 - r) * 1000 ]) (evs ++ step.2)

/-- Models generatePDF of both api files: the retry loop entered with
retries = 3, returning the result, the backoff waits and the event
trace. -/
def generatePDF (oracle : Nat → AttemptSpec) : Except String PDF × List Nat × List Ev :=
  generatePDFGo oracle 3 [] []

/-- Models cleanup(): close the cached browser only when it is cached and
connected (then clear the cache); a disconnected cached instance is left
in place and nothing is closed. -/
def cleanup (browserInstance : Option Browser) : Option Browser × List Ev :=
  match browserInstance with
  | some b => if b.connected then ( none, [ Ev.closeBrowser ] ) else ( some b, [] )
  | none => ( none, [] )

/-! ## Request handlers -/

/-- The response fields the claims are about, out of the JSON bodies the
handlers send. -/
structure Response where
  status : Nat
  error : Option String := none
  message : Option String := none
  missingFields : Option (List String) := none
  recordID : Option String := none
  noteId : Option String := none
  success : Option Bool := none
deriving DecidableEq

/-- External calls a handler can make. -/
inductive Call where
  | assocFetch
  | childFetch (id : String)
  | render
  | upload
  | note
deriving DecidableEq

/-- JS falsiness of a payload field: absent, or present but empty. -/
def jsFalsy (v : Option String) : Bool :=
  match v with
  | none => true
  | some s => s = ""

/-- Inbound enrollment-letter payload; each field is none when absent. -/
structure EnrollPayload where
  firstname : Option String := none
  lastname : Option String := none
  recordID : Option String := none
  student_id : Option String := none
  location : Option String := none
deriving DecidableEq

/-- Field access by name, as data[field] does on the payload object. -/
def enrollField (d : EnrollPayload) : String → Option String
  | "firstname" => d.firstname
  | "lastname" => d.lastname
  | "recordID" => d.recordID
  | "student_id" => d.student_id
  | "location" => d.location
  | _ => none

/-- The required-field list of the enrollment handler. -/
def requiredFieldsEnroll : List String :=
  [ "firstname", "lastname", "recordID", "student_id" ]

/-- missingFields of the enrollment handler: the required fields whose
payload value is falsy. -/
def missingFieldsEnroll (d : EnrollPayload) : List String :=
  requiredFieldsEnroll.filter (fun f => jsFalsy (enrollField d f))

/-- External world of the enrollment handler: the aggregation fetches,
the per-attempt renderer behaviour, and the upload/note outcomes. -/
structure World where
  assocFetch : Fetch AssocResponse
  childFetch : String → Fetch CourseProps
  render : Nat → AttemptSpec
  upload : Fetch String
  note : Fetch String

/-- The external calls findAssocCourses makes: the association fetch
always; when it succeeds with a well-shaped nonempty id list, one detail
fetch per child through Promise.all. -/
def findAssocCoursesCalls (assocFetch : Fetch AssocResponse) : List Call :=
  Call.assocFetch ::
    match assocFetch with
    | Fetch.ok resp =>
      match resp.results with
      | some ids => if ids.length = 0 then [] else ids.map Call.childFetch
      | none => []
    | Fetch.err _ => []

/-- The POST branch of the enrollment-letter handler (module.exports of
generatePDFAllEnroll.js) after body parsing: validate required fields,
aggregate, check for an empty course list, render, upload, create the
note; any error thrown along the way is caught by the top-level catch
and turned into a 500 Internal server error response.  Returns the
response and the external calls performed. -/
def enrollHandler (data : EnrollPayload) (w : World) : Response × List Call :=
  let missing := missingFieldsEnroll data
  if missing.length > 0 then
    ( { status := 400, error := some "Missing required fields",
        missingFields := some missing }, [] )
  else
    let aggCalls := findAssocCoursesCalls w.assocFetch
    match findAssocCourses w.assocFetch w.childFetch with
    | Except.error msg =>
        ( { status := 500, error := some "Internal server error",
            message := some msg, success := some false }, aggCalls )
    | Except.ok courses =>
      if courses.length = 0 then
        ( { status := 400,
            error := some "No valid course enrollments found for this student",
            recordID := data.recordID }, aggCalls )
      else
        match (generatePDF w.render).1 with
        | Except.error msg =>
            ( { status := 500, error := some "Internal server error",
                message := some msg, success := some false },
              aggCalls ++ [ Call.render ] )
        | Except.ok _ =>
          match w.upload with
          | Fetch.err msg =>
              ( { status := 500, error := some "Internal server error",
                  message := some msg, success := some false },
                aggCalls ++ [ Call.render, Call.upload ] )
          | Fetch.ok _ =>
            match w.note with
            | Fetch.err msg =>
                ( { status := 500, error := some "Internal server error",
                    message := some msg, success := some false },
                  aggCalls ++ [ Call.render, Call.upload, Call.note ] )
            | Fetch.ok noteId =>
                ( { status := 200,
                    message :=
                      some "PDF generated, uploaded, and note created/associated in HubSpot.",
                    noteId := some noteId, success := some true },
                  aggCalls ++ [ Call.render, Call.upload, Call.note ] )

/-- Inbound acceptance-letter payload.  The two course date fields are
carried as parsed epoch values when Number() of them is a valid date,
none otherwise (absent, or not parseable as epoch milliseconds). -/
structure LOAPayload where
  firstname : Option String := none
  lastname : Option String := none
  recordID : Option String := none
  student_id : Option String := none
  location : Option String := none
  course_id : Option String := none
  enrollment_record_id : Option String := none
  course_start_date : Option EpochMs := none
  course_end_date : Option EpochMs := none
deriving DecidableEq

/-- Field access by name on the acceptance payload. -/
def loaField (d : LOAPayload) : String → Option String
  | "firstname" => d.firstname
  | "lastname" => d.lastname
  | "recordID" => d.recordID
  | "student_id" => d.student_id
  | "location" => d.location
  | "course_id" => d.course_id
  | "enrollment_record_id" => d.enrollment_record_id
  | _ => none

/-- The required-field list of the acceptance handler (the course date
fields are not in it). -/
def requiredFieldsLOA : List String :=
  [ "firstname", "lastname", "recordID", "student_id", "location",
    "course_id", "enrollment_record_id" ]

/-- missingFields of the acceptance handler. -/
def missingFieldsLOA (d : LOAPayload) : List String :=
  requiredFieldsLOA.filter (fun f => jsFalsy (loaField d f))

/-- External world of the acceptance handler. -/
structure LOAWorld where
  render : Nat → AttemptSpec
  upload : Fetch String
  note : Fetch String

/-- The POST branch of the acceptance-letter handler (module.exports of
generateLOA.js) after body parsing.  Faithful to the source order: the
duration is computed from course_start_date and course_end_date BEFORE
the missing-field check runs, so an absent (or unparseable) date field
throws first and the top-level catch answers 500; only when both dates
format does control reach the 400 missing-fields response, then the
location fallback, the course mapping, and the render/upload/note
chain. -/
def loaHandler (data : LOAPayload) (w : LOAWorld) : Response × List Call :=
  let missing := missingFieldsLOA data
  match data.course_start_date, data.course_end_date with
  | some sd, some ed =>
    let start := formatEpochMsToLongDate sd
    let endD := formatEpochMsToLongDate ed
    let courseIdentifier := jsToLower (data.course_id.getD "")
    let isSitPrac := jsIncludes courseIdentifier "sitpractice"
    let _duration := if isSitPrac = false then start ++ " to " ++ endD else "12 Weeks"
    if missing.length > 0 then
      ( { status := 400, error := some "Missing required fields",
          missingFields := some missing }, [] )
    else
      match findLocationLOA data.location with
      | none => ( { status := 400, error := some "Invalid location" }, [] )
      | some _serviceLocation =>
        let _fullCourseName := mapCourseLOA data.course_id
        match (generatePDF w.render).1 with
        | Except.error msg =>
            ( { status := 500, error := some "Internal server error",
                message := some msg, success := some false }, [ Call.render ] )
        | Except.ok _ =>
          match w.upload with
          | Fetch.err msg =>
              ( { status := 500, error := some "Internal server error",
                  message := some msg, success := some false },
                [ Call.render, Call.upload ] )
          | Fetch.ok _ =>
            match w.note with
            | Fetch.err msg =>
                ( { status := 500, error := some "Internal server error",
                    message := some msg, success := some false },
                  [ Call.render, Call.upload, Call.note ] )
            | Fetch.ok noteId =>
                ( { status := 200,
                    message :=
                      some "PDF generated, uploaded, and note created/associated in HubSpot.",
                    noteId := some noteId, success := some true },
                  [ Call.render, Call.upload, Call.note ] )
  | _, _ =>
    ( { status := 500, error := some "Internal server error",
        message := some "Invalid epoch milliseconds", success := some false }, [] )

/-! ## Mock data

The twelve-record input of testLimitingLogic in
src/test-enrollment-limiting.js: child ids 001 to 012 with creation
timestamps on the first day of each month of 2024 (epoch ms, UTC). -/

/-- Child id paired with its creation timestamp, January to December 2024. -/
def mockCreateDates : List (String × EpochMs) :=
  [ ( "001", 1704067200000 ), ( "002", 1706745600000 ), ( "003", 1709251200000 ),
    ( "004", 1711929600000 ), ( "005", 1714521600000 ), ( "006", 1717200000000 ),
    ( "007", 1719792000000 ), ( "008", 1722470400000 ), ( "009", 1725148800000 ),
    ( "010", 1727740800000 ), ( "011", 1730419200000 ), ( "012", 1733011200000 ) ]

/-- The twelve mock child ids in creation order. -/
def mockIds : List String := mockCreateDates.map Prod.fst

/-- Properties of a child record that survives per-record validation:
known course code, parseable start and end dates, known location, and
the given creation timestamp. -/
def mkMockProps (create : EpochMs) : CourseProps :=
  { course_id := some "AFK", course_name := some "AFK Course",
    course_start_date := some 1704067200000, course_end_date := some 1735689600000,
    location := some "Mississauga", createdate := some create }

/-- Detail-fetch outcomes for the twelve mock children. -/
def mockChildFetch (id : String) : Fetch CourseProps :=
  match mockCreateDates.find? (fun kv => kv.1 = id) with
  | some kv => Fetch.ok (mkMockProps kv.2)
  | none => Fetch.err "unknown id"

/-- The course record findCourseProps builds from mkMockProps. -/
def mkMockCourse (create : EpochMs) (hid : String) : Course :=
  { courseID := "Assessment of Fundemental Knowledge Course"
    duration := formatDateToLongDate 1704067200000 ++ " to " ++ formatDateToLongDate 1735689600000
    location := some "200-1515 Matheson Blvd Mississauga, ON L4W 2P5"
    createDate := create
    hubspotId := hid }

/-! ## Helper lemmas about the aggregation pipeline -/

/-- A child with a missing end date, start date or course code resolves
to null without an error. -/
lemma findCourseProps_missing (cid : String) (props : CourseProps)
    (h : props.course_end_date = none ∨ props.course_start_date = none ∨
      props.course_id = none) :
    findCourseProps cid (Fetch.ok props) = Except.ok none := by
  rcases h with h | h | h <;>
    cases hsd : props.course_start_date <;> cases hed : props.course_end_date <;>
      cases hcid : props.course_id <;> simp_all [findCourseProps]

/-- A per-child success carries the child id as its hubspotId. -/
lemma findCourseProps_ok_some_hubspotId {i : String} {f : Fetch CourseProps} {c : Course}
    (h : findCourseProps i f = Except.ok (some c)) : c.hubspotId = i := by
  cases f with
  | err m => simp [findCourseProps] at h
  | ok props =>
    cases hsd : props.course_start_date <;> cases hed : props.course_end_date <;>
      cases hcid : props.course_id <;> simp_all [findCourseProps]
    rename_i sd ed cid
    split at h
    · simp at h
    · split at h
      · simp at h
      · rw [Except.ok.injEq, Option.some.injEq] at h
        subst h
        rfl

/-- Promise.all rejects when some element rejected. -/
lemma promiseAll_error_of_mem {α : Type} {l : List (Except String α)} {m : String}
    (h : Except.error m ∈ l) : ∃ m2, promiseAll l = Except.error m2 := by
  induction l with
  | nil => cases h
  | cons x xs ih =>
    cases x with
    | error m1 => exact ⟨m1, rfl⟩
    | ok a =>
      rcases List.mem_cons.mp h with h1 | h1
      · exact absurd h1 (by simp)
      · obtain ⟨m2, hm2⟩ := ih h1
        exact ⟨m2, by simp [promiseAll, hm2]⟩

/-- Every value resolved by Promise.all came from a resolved element. -/
lemma promiseAll_ok_mem {α : Type} : ∀ {l : List (Except String α)} {vs : List α},
    promiseAll l = Except.ok vs → ∀ v ∈ vs, Except.ok v ∈ l := by
  intro l
  induction l with
  | nil =>
    intro vs h v hv
    simp only [promiseAll, Except.ok.injEq] at h
    subst h
    cases hv
  | cons x xs ih =>
    intro vs h v hv
    cases x with
    | error m => simp [promiseAll] at h
    | ok a =>
      cases hx : promiseAll xs with
      | error m => simp [promiseAll, hx] at h
      | ok rest =>
        simp only [promiseAll, hx, Except.ok.injEq] at h
        subst h
        rcases List.mem_cons.mp hv with h1 | h1
        · exact List.mem_cons.mpr (Or.inl (by rw [h1]))
        · exact List.mem_cons.mpr (Or.inr (ih hx v h1))

/-- Promise.all resolves when every element resolved. -/
lemma promiseAll_ok_of_all_ok {α : Type} : ∀ {l : List (Except String α)},
    (∀ x ∈ l, ∃ v, x = Except.ok v) → ∃ vs, promiseAll l = Except.ok vs := by
  intro l
  induction l with
  | nil => exact fun _ => ⟨[], rfl⟩
  | cons x xs ih =>
    intro h
    obtain ⟨v, hv⟩ := h x (List.mem_cons_self x xs)
    obtain ⟨vs, hvs⟩ := ih (fun y hy => h y (List.mem_cons.mpr (Or.inr hy)))
    subst hv
    exact ⟨v :: vs, by simp [promiseAll, hvs]⟩

/-- A successful aggregation result is capped at 8. -/
lemma findAssocCourses_ok_length {af : Fetch AssocResponse}
    {cf : String → Fetch CourseProps} {l : List Course}
    (h : findAssocCourses af cf = Except.ok l) : l.length ≤ 8 := by
  cases af with
  | err m => simp [findAssocCourses] at h
  | ok resp =>
    cases hres : resp.results with
    | none => simp [findAssocCourses, hres] at h
    | some ids =>
      simp only [findAssocCourses, hres] at h
      split at h
      · simp at h
      · split at h
        · simp at h
        · rw [Except.ok.injEq] at h
          subst h
          exact List.length_take_le 8 _

/-- A successful aggregation result is sorted by creation timestamp
descending. -/
lemma findAssocCourses_ok_sorted {af : Fetch AssocResponse}
    {cf : String → Fetch CourseProps} {l : List Course}
    (h : findAssocCourses af cf = Except.ok l) : List.Sorted createDesc l := by
  cases af with
  | err m => simp [findAssocCourses] at h
  | ok resp =>
    cases hres : resp.results with
    | none => simp [findAssocCourses, hres] at h
    | some ids =>
      simp only [findAssocCourses, hres] at h
      split at h
      · simp at h
      · split at h
        · simp at h
        · rw [Except.ok.injEq] at h
          subst h
          exact List.Pairwise.sublist (List.take_sublist 8 _)
            (List.sorted_insertionSort createDesc _)

/-- Every course in a successful aggregation result was produced by the
per-child fetch of its own hubspotId. -/
lemma findAssocCourses_ok_mem {ids : List String} {cf : String → Fetch CourseProps}
    {l : List Course}
    (h : findAssocCourses (Fetch.ok { results := some ids }) cf = Except.ok l)
    {c : Course} (hc : c ∈ l) :
    findCourseProps c.hubspotId (cf c.hubspotId) = Except.ok (some c) := by
  simp only [findAssocCourses] at h
  split at h
  · simp at h
  · split at h
    · simp at h
    · rename_i settled hsettled
      rw [Except.ok.injEq] at h
      subst h
      have h1 : c ∈ List.insertionSort createDesc (settled.filterMap id) :=
        List.take_subset 8 _ hc
      have h2 : c ∈ settled.filterMap id :=
        ((List.perm_insertionSort createDesc _).mem_iff).mp h1
      obtain ⟨o, ho, hoc⟩ := List.mem_filterMap.mp h2
      have h3 : o = some c := hoc
      subst h3
      have h4 : Except.ok (some c) ∈ ids.map (fun j => findCourseProps j (cf j)) :=
        promiseAll_ok_mem hsettled _ ho
      obtain ⟨i, _hi, hfi⟩ := List.mem_map.mp h4
      have h5 : c.hubspotId = i := findCourseProps_ok_some_hubspotId hfi
      rw [h5]
      exact hfi

/-! ## Claims -/

/-- Claim C1: for every set of candidate enrollment records that survive
per-record validation, findAssocCourses returns them sorted by creation
timestamp descending and truncated to at most 8; in particular, on the
twelve mock children with distinct monthly 2024 creation timestamps, it
returns exactly the eight most recently created, with ids
012, 011, 010, 009, 008, 007, 006, 005 in that order. -/
theorem C1_sorted_capped_limiting :
    (∀ af cf l, findAssocCourses af cf = Except.ok l →
        l.length ≤ 8 ∧ List.Sorted createDesc l)
    ∧ (findAssocCourses (Fetch.ok { results := some mockIds }) mockChildFetch).toOption.map
        (List.map Course.hubspotId)
      = some [ "012", "011", "010", "009", "008", "007", "006", "005" ] := by
  constructor
  · intro af cf l h
    exact ⟨findAssocCourses_ok_length h, findAssocCourses_ok_sorted h⟩
  · decide

/-- Witness for C1: the general part applied at a concrete one-child
aggregation run. -/
theorem C1_sorted_capped_limiting_witness :
    [ mkMockCourse 1704067200000 "001" ].length ≤ 8
    ∧ List.Sorted createDesc [ mkMockCourse 1704067200000 "001" ] :=
  C1_sorted_capped_limiting.1 (Fetch.ok { results := some [ "001" ] }) mockChildFetch
    [ mkMockCourse 1704067200000 "001" ] (by decide)

/-- Claim C2: a child record whose fetched properties lack
course_end_date (or course_start_date or the course code) resolves to
null and is excluded from the aggregation result without failing the
batch, whereas a network/HTTP error on any single child detail fetch is
rethrown and fails the entire findAssocCourses call. -/
theorem C2_skip_missing_fail_network :
    (∀ cid props, props.course_end_date = none ∨ props.course_start_date = none ∨
        props.course_id = none →
        findCourseProps cid (Fetch.ok props) = Except.ok none)
    ∧ (∀ ids cf, ids ≠ [] →
        (∀ i ∈ ids, ∃ r, findCourseProps i (cf i) = Except.ok r) →
        ∃ l, findAssocCourses (Fetch.ok { results := some ids }) cf = Except.ok l ∧
          ∀ c0 ∈ ids, ∀ props, cf c0 = Fetch.ok props → props.course_end_date = none →
            ∀ course ∈ l, course.hubspotId ≠ c0)
    ∧ (∀ ids cf i m, i ∈ ids → cf i = Fetch.err m →
        ∃ m2, findAssocCourses (Fetch.ok { results := some ids }) cf
          = Except.error m2) := by
  refine ⟨findCourseProps_missing, ?_, ?_⟩
  · intro ids cf hne hok
    have hall : ∀ x ∈ ids.map (fun i => findCourseProps i (cf i)), ∃ v, x = Except.ok v := by
      intro x hx
      obtain ⟨i, hi, hix⟩ := List.mem_map.mp hx
      obtain ⟨r, hr⟩ := hok i hi
      exact ⟨r, by rw [← hix, hr]⟩
    obtain ⟨vs, hvs⟩ := promiseAll_ok_of_all_ok hall
    have hlen : ¬ ids.length = 0 := fun h0 => hne (List.length_eq_zero.mp h0)
    have hAgg : findAssocCourses (Fetch.ok { results := some ids }) cf
        = Except.ok ((List.insertionSort createDesc (vs.filterMap id)).take 8) := by
      simp only [findAssocCourses]
      rw [if_neg hlen, hvs]
    refine ⟨_, hAgg, ?_⟩
    intro c0 _hc0 props hcf hend course hcourse hEqId
    have hprov : findCourseProps course.hubspotId (cf course.hubspotId)
        = Except.ok (some course) := findAssocCourses_ok_mem hAgg hcourse
    rw [hEqId, hcf] at hprov
    rw [findCourseProps_missing c0 props (Or.inl hend)] at hprov
    exact Option.noConfusion (Except.ok.inj hprov)
  · intro ids cf i m hi hcf
    have hlen : ¬ ids.length = 0 := by
      intro h0
      rw [List.length_eq_zero] at h0
      subst h0
      cases hi
    have hmem : Except.error ( "Failed fetching course " ++ i ++ ": " ++ m )
        ∈ ids.map (fun j => findCourseProps j (cf j)) := by
      refine List.mem_map.mpr ⟨i, hi, ?_⟩
      rw [hcf]
      rfl
    obtain ⟨m2, hm2⟩ := promiseAll_error_of_mem hmem
    refine ⟨ "findAssocCourses failed: At least one course fetch failed: " ++ m2, ?_⟩
    simp only [findAssocCourses]
    rw [if_neg hlen, hm2]

/-- A child record missing its course_end_date. -/
def propsNoEndDate : CourseProps :=
  { course_id := some "AFK", course_start_date := some 5 }

/-- A two-child fetch map: X1 lacks its end date, X2 is fully valid. -/
def cfNoEndDate (j : String) : Fetch CourseProps :=
  if j = "X1" then Fetch.ok propsNoEndDate else Fetch.ok (mkMockProps 7)

/-- Witness for C2: all three parts applied at concrete inputs — a child
missing its end date resolves to null; a two-child batch in which one
child lacks its end date succeeds while excluding it; a batch in which
one child fetch rejects fails whole. -/
theorem C2_skip_missing_fail_network_witness :
    findCourseProps "X1" (Fetch.ok propsNoEndDate) = Except.ok none
    ∧ (∃ l, findAssocCourses (Fetch.ok { results := some [ "X1", "X2" ] }) cfNoEndDate
        = Except.ok l ∧
        ∀ c0 ∈ [ "X1", "X2" ], ∀ props,
          cfNoEndDate c0 = Fetch.ok props → props.course_end_date = none →
          ∀ course ∈ l, course.hubspotId ≠ c0)
    ∧ (∃ m2, findAssocCourses (Fetch.ok { results := some [ "X1" ] })
          (fun _ => Fetch.err "socket hang up") = Except.error m2) :=
  ⟨C2_skip_missing_fail_network.1 "X1" _ (Or.inl rfl),
   C2_skip_missing_fail_network.2.1 [ "X1", "X2" ] cfNoEndDate (by decide)
     (by
       intro i hi
       rcases List.mem_cons.mp hi with h1 | h1
       · subst h1
         exact ⟨none, by decide⟩
       · rcases List.mem_singleton.mp h1 with rfl
         exact ⟨some (mkMockCourse 7 "X2"), by decide⟩),
   C2_skip_missing_fail_network.2.2 [ "X1" ] _ "X1" "socket hang up" (by decide) rfl⟩

/-! ## Step lemmas for the retry loop -/

/-- Unfolding of the loop at fuel 3 (attempt 1): on failure the loop
decrements retries to 2 and waits (4 - 2) * 1000 = 2000 ms. -/
lemma generatePDF_step1 (oracle : Nat → AttemptSpec) :
    generatePDF oracle =
      match (runAttempt 1 (oracle 1)).1 with
      | Except.ok pdf => ( Except.ok pdf, [], (runAttempt 1 (oracle 1)).2 )
      | Except.error _ =>
          generatePDFGo oracle 2 [ 2000 ] ((runAttempt 1 (oracle 1)).2) := rfl

/-- Unfolding of the loop at fuel 2 (attempt 2): on failure the loop
decrements retries to 1 and waits (4 - 1) * 1000 = 3000 ms. -/
lemma generatePDFGo2_step (oracle : Nat → AttemptSpec) (waits : List Nat) (evs : List Ev) :
    generatePDFGo oracle 2 waits evs =
      match (runAttempt 2 (oracle 2)).1 with
      | Except.ok pdf => ( Except.ok pdf, waits, evs ++ (runAttempt 2 (oracle 2)).2 )
      | Except.error _ =>
          generatePDFGo oracle 1 (waits ++ [ 3000 ]) (evs ++ (runAttempt 2 (oracle 2)).2) := rfl

/-- Unfolding of the loop at fuel 1 (attempt 3): a failure here exhausts
the retries and the last error is rethrown without a wait. -/
lemma generatePDFGo1_step (oracle : Nat → AttemptSpec) (waits : List Nat) (evs : List Ev) :
    generatePDFGo oracle 1 waits evs =
      match (runAttempt 3 (oracle 3)).1 with
      | Except.ok pdf => ( Except.ok pdf, waits, evs ++ (runAttempt 3 (oracle 3)).2 )
      | Except.error e => ( Except.error e, waits, evs ++ (runAttempt 3 (oracle 3)).2 ) := rfl

/-- A renderer whose page.pdf step always fails. -/
def alwaysFailRender : Nat → AttemptSpec :=
  fun _ => { browserConnected := true, newPageOk := true,
             pdfResult := Except.error "render failed" }

/-- A renderer failing attempts 1, 2 and 3 with distinguishable messages. -/
def failMsgs (e1 e2 e3 : String) : Nat → AttemptSpec :=
  fun n => { browserConnected := true, newPageOk := true,
             pdfResult := Except.error (if n = 1 then e1 else if n = 2 then e2 else e3) }

/-- Claim C3 counterexample: with an always-failing renderer the waits
are 2000 ms after failed attempt 1 and 3000 ms after failed attempt 2,
not the 1000 ms and 2000 ms the claim (wait of n * 1000 ms after failed
attempt n) prescribes: the code computes (4 - retries) * 1000 after the
decrement. -/
theorem C3_backoff_counterexample :
    (generatePDF alwaysFailRender).2.1 = [ 2000, 3000 ]
    ∧ [ 2000, 3000 ] ≠ [ 1 * 1000, 2 * 1000 ] := by
  exact ⟨by decide, by decide⟩

/-- Claim C3 amended: after a failed attempt number n with attempts
remaining, the loop waits (n + 1) * 1000 ms — 2000 ms after attempt 1
and 3000 ms after attempt 2 — and once all three attempts are exhausted
it rethrows the last failure. -/
theorem C3_backoff_amended :
    (∀ oracle : Nat → AttemptSpec,
        (generatePDF oracle).2.1 = [] ∨ (generatePDF oracle).2.1 = [ 2000 ] ∨
          (generatePDF oracle).2.1 = [ 2000, 3000 ])
    ∧ (∀ e1 e2 e3 : String,
        (generatePDF (failMsgs e1 e2 e3)).1 = Except.error e3 ∧
        (generatePDF (failMsgs e1 e2 e3)).2.1 = [ 2000, 3000 ]) := by
  constructor
  · intro oracle
    rw [generatePDF_step1]
    cases h1 : (runAttempt 1 (oracle 1)).1 with
    | ok p => simp
    | error e =>
      rw [generatePDFGo2_step]
      cases h2 : (runAttempt 2 (oracle 2)).1 with
      | ok p => simp
      | error e2 =>
        rw [generatePDFGo1_step]
        cases h3 : (runAttempt 3 (oracle 3)).1 with
        | ok p => simp
        | error e3 => simp
  · exact fun e1 e2 e3 => ⟨rfl, rfl⟩

/-- Claim C4 counterexample: the course code B9-SitPractice-2024 maps to
the display name of key B9 (the NDECC Clinical Skills name), which is
not the display name of key SitPractice. -/
theorem C4_substring_counterexample :
    mapCourse (some "B9-SitPractice-2024") = some "NDECC® Clinical Skills Course"
    ∧ mapCourse (some "B9-SitPractice-2024") ≠ some "NDECC® Situational Practice Course" := by
  exact ⟨by decide, by decide⟩

/-- Claim C4 amended: in both files the mapper returns, via
case-insensitive substring match, the display name associated with key
B9 — the first matching entry in the iteration order of the table — and
the matched entry is indeed B9, not SitPractice. -/
theorem C4_substring_amended :
    mapCourse (some "B9-SitPractice-2024") = some "NDECC® Clinical Skills Course"
    ∧ mapCourseLOA (some "B9-SitPractice-2024") = some "NDECC® Clinical Skills Course"
    ∧ (course_mapper.find? (fun kv => jsIncludes (jsToLower "B9-SitPractice-2024")
        (jsToLower kv.1))).map Prod.fst = some "B9" := by
  exact ⟨by decide, by decide, by decide⟩

/-! ## Concrete worlds for handler runs -/

/-- A renderer that succeeds on the first attempt. -/
def okRender : Nat → AttemptSpec :=
  fun _ => { browserConnected := true, newPageOk := true, pdfResult := Except.ok [ 37 ] }

/-- An enrollment-handler world in which every external call succeeds. -/
def idleWorld : World :=
  { assocFetch := Fetch.ok { results := some [ "001" ] }, childFetch := mockChildFetch,
    render := okRender, upload := Fetch.ok "fileUrl", note := Fetch.ok "note1" }

/-- An acceptance-handler world in which every external call succeeds. -/
def idleLOAWorld : LOAWorld :=
  { render := okRender, upload := Fetch.ok "fileUrl", note := Fetch.ok "note1" }

/-- A fully valid enrollment payload (the test payload of
test-enrollment-limiting.js). -/
def validEnrollData : EnrollPayload :=
  { firstname := some "Test", lastname := some "Student", recordID := some "12345",
    student_id := some "TEST001", location := some "Mississauga" }

/-- A world whose association fetch returns zero child records. -/
def zeroAssocWorld : World :=
  { assocFetch := Fetch.ok { results := some [] }, childFetch := mockChildFetch,
    render := okRender, upload := Fetch.ok "fileUrl", note := Fetch.ok "note1" }

/-- A world with one associated child that is filtered out (missing end
date), so aggregation succeeds with an empty list. -/
def emptyChildWorld : World :=
  { assocFetch := Fetch.ok { results := some [ "X1" ] },
    childFetch := fun _ => Fetch.ok propsNoEndDate,
    render := okRender, upload := Fetch.ok "fileUrl", note := Fetch.ok "note1" }

/-- An enrollment payload with only firstname present. -/
def partialEnrollData : EnrollPayload := { firstname := some "Jane" }

/-- An acceptance payload with only firstname and the two course date
fields present. -/
def partialLOAData : LOAPayload :=
  { firstname := some "Jane", course_start_date := some 5, course_end_date := some 9 }

/-- Claim C5 counterexample: the empty acceptance payload misses every
required field, yet the handler answers 500 without naming any missing
field, because the duration computation (which throws on the absent
course_start_date) runs before the missing-field check. -/
theorem C5_missing_fields_counterexample :
    (missingFieldsLOA ({} : LOAPayload)).length > 0
    ∧ (loaHandler ({} : LOAPayload) idleLOAWorld).1.status = 500
    ∧ (loaHandler ({} : LOAPayload) idleLOAWorld).1.missingFields = none := by
  exact ⟨by decide, by decide, by decide⟩

/-- Claim C5 amended: the enrollment handler always answers 400 naming
exactly the missing fields, with no external calls; the acceptance
handler does the same provided both course date fields are present and
parseable, and otherwise answers 500 (the date formatting throws before
the missing-field check) — still with no external calls. -/
theorem C5_missing_fields_amended :
    (∀ data w, (missingFieldsEnroll data).length > 0 →
        enrollHandler data w =
          ( { status := 400, error := some "Missing required fields",
              missingFields := some (missingFieldsEnroll data) }, [] ))
    ∧ (∀ data w, (missingFieldsLOA data).length > 0 →
        (∃ sd, data.course_start_date = some sd) →
        (∃ ed, data.course_end_date = some ed) →
        loaHandler data w =
          ( { status := 400, error := some "Missing required fields",
              missingFields := some (missingFieldsLOA data) }, [] ))
    ∧ (∀ data w, data.course_start_date = none ∨ data.course_end_date = none →
        (loaHandler data w).1.status = 500 ∧ (loaHandler data w).2 = []) := by
  refine ⟨?_, ?_, ?_⟩
  · intro data w h
    simp only [enrollHandler]
    rw [if_pos h]
  · intro data w h hsd hed
    obtain ⟨sd, hsd⟩ := hsd
    obtain ⟨ed, hed⟩ := hed
    simp only [loaHandler, hsd, hed]
    rw [if_pos h]
  · intro data w h
    rcases h with h | h <;>
      cases hsd : data.course_start_date <;> cases hed : data.course_end_date <;>
        simp_all [loaHandler]

/-- Witness for C5 amended: the three parts applied at concrete payloads. -/
theorem C5_missing_fields_amended_witness :
    enrollHandler partialEnrollData idleWorld =
      ( { status := 400, error := some "Missing required fields",
          missingFields := some (missingFieldsEnroll partialEnrollData) }, [] )
    ∧ loaHandler partialLOAData idleLOAWorld =
      ( { status := 400, error := some "Missing required fields",
          missingFields := some (missingFieldsLOA partialLOAData) }, [] )
    ∧ (loaHandler ({} : LOAPayload) idleLOAWorld).1.status = 500
    ∧ (loaHandler ({} : LOAPayload) idleLOAWorld).2 = [] :=
  ⟨C5_missing_fields_amended.1 partialEnrollData idleWorld (by decide),
   C5_missing_fields_amended.2.1 partialLOAData idleLOAWorld (by decide) ⟨5, rfl⟩ ⟨9, rfl⟩,
   C5_missing_fields_amended.2.2 ({} : LOAPayload) idleLOAWorld (Or.inl rfl)⟩

/-- Claim C6 counterexample: with a fully valid payload and an
association fetch returning zero child records, the handler answers 500
Internal server error with no recordID context — the aggregation throw
lands in the top-level catch — not a 4xx. -/
theorem C6_zero_assoc_counterexample :
    (enrollHandler validEnrollData zeroAssocWorld).1.status = 500
    ∧ (enrollHandler validEnrollData zeroAssocWorld).1.error
        = some "Internal server error"
    ∧ (enrollHandler validEnrollData zeroAssocWorld).1.recordID = none := by
  exact ⟨by decide, by decide, by decide⟩

/-- Claim C6 amended: zero associations make findAssocCourses throw, and
the handler surfaces that as a 500 internal-error response carrying the
aggregation message; the 400 response with the parent record id is
produced only when aggregation succeeds with an empty course list (all
children filtered out). -/
theorem C6_zero_assoc_amended :
    (∀ data w, (missingFieldsEnroll data).length = 0 →
        w.assocFetch = Fetch.ok { results := some [] } →
        enrollHandler data w =
          ( { status := 500, error := some "Internal server error",
              message := some "findAssocCourses failed: Trainee has no valid enrollments",
              success := some false }, [ Call.assocFetch ] ))
    ∧ (∀ data w, (missingFieldsEnroll data).length = 0 →
        findAssocCourses w.assocFetch w.childFetch = Except.ok [] →
        enrollHandler data w =
          ( { status := 400,
              error := some "No valid course enrollments found for this student",
              recordID := data.recordID }, findAssocCoursesCalls w.assocFetch )) := by
  constructor
  · intro data w h hw
    simp only [enrollHandler]
    rw [if_neg (by omega), hw]
    rfl
  · intro data w h hAgg
    simp only [enrollHandler]
    rw [if_neg (by omega), hAgg]
    rfl

/-- Witness for C6 amended: both parts applied at concrete worlds. -/
theorem C6_zero_assoc_amended_witness :
    enrollHandler validEnrollData zeroAssocWorld =
      ( { status := 500, error := some "Internal server error",
          message := some "findAssocCourses failed: Trainee has no valid enrollments",
          success := some false }, [ Call.assocFetch ] )
    ∧ enrollHandler validEnrollData emptyChildWorld =
      ( { status := 400,
          error := some "No valid course enrollments found for this student",
          recordID := validEnrollData.recordID },
        findAssocCoursesCalls emptyChildWorld.assocFetch ) :=
  ⟨C6_zero_assoc_amended.1 validEnrollData zeroAssocWorld (by decide) rfl,
   C6_zero_assoc_amended.2 validEnrollData emptyChildWorld (by decide) (by decide)⟩

/-! ## Event-trace invariant of the renderer -/

/-- The render operation never closes the browser session, and every
page-open of an attempt is matched by a page-close of that attempt. -/
def pageBalanced (evs : List Ev) : Prop :=
  Ev.closeBrowser ∉ evs
  ∧ ∀ n, evs.count (Ev.openPage n) = evs.count (Ev.closePage n)

lemma pageBalanced_nil : pageBalanced [] := ⟨by simp, fun _ => rfl⟩

lemma pageBalanced_append {a b : List Ev} (ha : pageBalanced a) (hb : pageBalanced b) :
    pageBalanced (a ++ b) := by
  constructor
  · intro h
    rcases List.mem_append.mp h with h | h
    · exact ha.1 h
    · exact hb.1 h
  · intro n
    rw [List.count_append, List.count_append, ha.2 n, hb.2 n]

lemma runAttempt_balanced (n : Nat) (s : AttemptSpec) : pageBalanced (runAttempt n s).2 := by
  unfold runAttempt
  split
  · exact ⟨by simp, fun m => by simp [List.count_cons]⟩
  · split
    · exact ⟨by simp, fun m => by simp⟩
    · split
      · exact ⟨by simp, fun m => by simp [List.count_cons]⟩
      · exact ⟨by simp, fun m => by simp [List.count_cons]⟩

lemma generatePDFGo_balanced (oracle : Nat → AttemptSpec) :
    ∀ r waits evs, pageBalanced evs →
      pageBalanced (generatePDFGo oracle r waits evs).2.2 := by
  intro r
  induction r with
  | zero => exact fun waits evs h => h
  | succ k ih =>
    intro waits evs h
    show pageBalanced (generatePDFGo oracle (k + 1) waits evs).2.2
    rw [generatePDFGo]
    cases hstep : (runAttempt (4 - (k + 1)) (oracle (4 - (k + 1)))).1 with
    | ok pdf =>
      exact pageBalanced_append h (runAttempt_balanced _ _)
    | error e =>
      dsimp only
      by_cases hk : k = 0
      · subst hk
        rw [if_pos rfl]
        exact pageBalanced_append h (runAttempt_balanced _ _)
      · rw [if_neg hk]
        exact ih _ _ (pageBalanced_append h (runAttempt_balanced _ _))

/-- Claim C7: in every attempt of the generatePDF retry loop, any
page opened during that attempt is closed before the attempt finishes —
on success, on a retried failure and on the final exhausting failure —
and the browser session itself is never closed by the render operation
(the trace contains no closeBrowser event, only cache resets). -/
theorem C7_page_always_closed :
    ∀ oracle : Nat → AttemptSpec,
      Ev.closeBrowser ∉ (generatePDF oracle).2.2
      ∧ ∀ n, ((generatePDF oracle).2.2).count (Ev.openPage n)
          = ((generatePDF oracle).2.2).count (Ev.closePage n) :=
  fun oracle => generatePDFGo_balanced oracle 3 [] [] pageBalanced_nil

/-- Claim C8: a disconnected cached browser session is never reused —
whenever the cache is empty or the cached session reports
connected = false, getBrowserInstance launches and returns the new
session; in the two-call scenario, a first call with a connected cached
session reuses it without launching, and after its connected flag is
forced to false the second call launches the new session. -/
theorem C8_disconnected_never_reused :
    (∀ cached launched,
        cached = none ∨ (∃ b, cached = some b ∧ b.connected = false) →
        getBrowserInstance cached launched = ( some launched, launched, true ))
    ∧ (∀ b1 b2 : Browser, b1.connected = true →
        getBrowserInstance (some b1) b2 = ( some b1, b1, false )
        ∧ getBrowserInstance (some { b1 with connected := false }) b2
            = ( some b2, b2, true )) := by
  constructor
  · intro cached launched h
    rcases h with h | ⟨b, hb, hc⟩
    · subst h
      rfl
    · subst hb
      simp [getBrowserInstance, hc]
  · intro b1 b2 h
    constructor
    · simp [getBrowserInstance, h]
    · simp [getBrowserInstance]

/-- Witness for C8: launch on an empty cache, reuse of a connected
cached session, and relaunch after the connected flag is forced false. -/
theorem C8_disconnected_never_reused_witness :
    getBrowserInstance none { id := 1, connected := true }
      = ( some { id := 1, connected := true }, { id := 1, connected := true }, true )
    ∧ getBrowserInstance (some { id := 1, connected := true }) { id := 2, connected := true }
      = ( some { id := 1, connected := true }, { id := 1, connected := true }, false )
    ∧ getBrowserInstance (some { id := 1, connected := false }) { id := 2, connected := true }
      = ( some { id := 2, connected := true }, { id := 2, connected := true }, true ) :=
  ⟨C8_disconnected_never_reused.1 none { id := 1, connected := true } (Or.inl rfl),
   (C8_disconnected_never_reused.2 { id := 1, connected := true }
     { id := 2, connected := true } rfl).1,
   (C8_disconnected_never_reused.2 { id := 1, connected := true }
     { id := 2, connected := true } rfl).2⟩

/-- An acceptance payload whose location value is not a known code. -/
def atlantisLOAData : LOAPayload :=
  { firstname := some "Jane", lastname := some "Doe", recordID := some "1",
    student_id := some "s1", location := some "Atlantis", course_id := some "AFK-2024",
    enrollment_record_id := some "e1", course_start_date := some 1704067200000,
    course_end_date := some 1735689600000 }

/-- Claim C9 counterexample: an unknown location value does not produce
a 4xx — findLocation of the acceptance flow falls back to the
Mississauga address and the handler builds and delivers the letter,
answering 200 after the full render/upload/note chain. -/
theorem C9_unknown_location_counterexample :
    findLocationLOA (some "Atlantis")
      = some "200-1515 Matheson Blvd Mississauga, ON L4W 2P5"
    ∧ (loaHandler atlantisLOAData idleLOAWorld).1.status = 200
    ∧ (loaHandler atlantisLOAData idleLOAWorld).2
        = [ Call.render, Call.upload, Call.note ] := by
  exact ⟨by decide, by decide, by decide⟩

/-- Claim C9 amended: the acceptance flow never surfaces an unknown
location as a client error: findLocation always yields an address,
falling back to the Mississauga one on any unknown code (so the
invalid-location 400 branch is unreachable), and the handler proceeds
to build the letter. -/
theorem C9_unknown_location_amended :
    (∀ loc, (findLocationLOA loc).isSome = true)
    ∧ (∀ loc, location_mapper.find? (fun kv => kv.1 = loc) = none →
        findLocationLOA (some loc)
          = some "200-1515 Matheson Blvd Mississauga, ON L4W 2P5")
    ∧ (loaHandler atlantisLOAData idleLOAWorld).1
        = { status := 200,
            message := some "PDF generated, uploaded, and note created/associated in HubSpot.",
            noteId := some "note1", success := some true } := by
  refine ⟨?_, ?_, by decide⟩
  · intro loc
    cases loc with
    | none => decide
    | some l =>
      unfold findLocationLOA
      cases hf : findLocation (some l) with
      | some v => rfl
      | none => decide
  · intro loc hf
    unfold findLocationLOA
    rw [show findLocation (some loc)
        = (location_mapper.find? (fun kv => kv.1 = loc)).map (fun kv => kv.2) from rfl, hf]
    decide

/-- Witness for C9 amended: the fallback applied at the unknown code
Atlantis. -/
theorem C9_unknown_location_amended_witness :
    findLocationLOA (some "Atlantis")
      = some "200-1515 Matheson Blvd Mississauga, ON L4W 2P5" :=
  C9_unknown_location_amended.2.1 "Atlantis" (by decide)

/-- A child record with valid course data but no createdate. -/
def propsNoCreate : CourseProps :=
  { course_id := some "AFK", course_name := some "AFK Course",
    course_start_date := some 1704067200000, course_end_date := some 1735689600000,
    location := some "Mississauga", createdate := none }

/-- A two-child fetch map: A has no createdate, B has a positive one. -/
def cfEpoch (j : String) : Fetch CourseProps :=
  if j = "A" then Fetch.ok propsNoCreate else Fetch.ok (mkMockProps 5)

/-- Claim C10: a child record with a known course code and parseable
start/end dates but a missing createdate is not excluded — it is kept
with its creation timestamp set to the Unix epoch (new Date(0), i.e.
0 ms) — and therefore every record with a positive (genuine) creation
timestamp precedes it in the descending aggregation order. -/
theorem C10_missing_createdate_epoch :
    (∀ cid props sd ed fullName,
        props.createdate = none →
        props.course_start_date = some sd →
        props.course_end_date = some ed →
        mapCourse props.course_id = some fullName →
        findCourseProps cid (Fetch.ok props) =
          Except.ok (some
            { courseID := fullName
              duration := formatDateToLongDate sd ++ " to " ++ formatDateToLongDate ed
              location := findLocation props.location
              createDate := 0
              hubspotId := cid }))
    ∧ (∀ af cf l i j (hi : i < l.length) (hj : j < l.length),
        findAssocCourses af cf = Except.ok l →
        (l.get ⟨i, hi⟩).createDate = 0 →
        0 < (l.get ⟨j, hj⟩).createDate →
        j < i) := by
  constructor
  · intro cid props sd ed fullName hcr hsd hed hmap
    cases hcid : props.course_id with
    | none =>
      rw [hcid] at hmap
      simp [mapCourse, lookupCourse] at hmap
    | some cidv =>
      rw [hcid] at hmap
      have hne : ¬ cidv = "" := by
        intro h0
        subst h0
        simp [mapCourse, lookupCourse] at hmap
      simp only [findCourseProps, hsd, hed, hcid]
      rw [if_neg hne, hmap]
      simp [hcr]
  · intro af cf l i j hi hj hAgg h0 hpos
    have hs : List.Sorted createDesc l := findAssocCourses_ok_sorted hAgg
    rcases Nat.lt_or_ge j i with hji | hij
    · exact hji
    · exfalso
      rcases Nat.lt_or_ge i j with hlt | hge
      · have hR := List.pairwise_iff_get.mp hs ⟨i, hi⟩ ⟨j, hj⟩ (Fin.mk_lt_mk.mpr hlt)
        have hR2 : (l.get ⟨j, hj⟩).createDate ≤ (l.get ⟨i, hi⟩).createDate := hR
        rw [h0] at hR2
        exact absurd (lt_of_lt_of_le hpos hR2) (lt_irrefl 0)
      · have heq : i = j := le_antisymm hij hge
        have hfin : (⟨i, hi⟩ : Fin l.length) = ⟨j, hj⟩ := Fin.ext heq
        rw [hfin] at h0
        rw [h0] at hpos
        exact lt_irrefl 0 hpos

/-- Witness for C10: the epoch default at a concrete child, and the
ranking applied to a concrete two-child aggregation in which the
record with a genuine timestamp (index 0) precedes the epoch one
(index 1). -/
theorem C10_missing_createdate_epoch_witness :
    findCourseProps "A" (Fetch.ok propsNoCreate) =
      Except.ok (some
        { courseID := "Assessment of Fundemental Knowledge Course"
          duration := formatDateToLongDate 1704067200000 ++ " to "
            ++ formatDateToLongDate 1735689600000
          location := findLocation propsNoCreate.location
          createDate := 0
          hubspotId := "A" })
    ∧ (0 : Nat) < 1 :=
  ⟨C10_missing_createdate_epoch.1 "A" propsNoCreate 1704067200000 1735689600000
      "Assessment of Fundemental Knowledge Course" rfl rfl rfl (by decide),
   C10_missing_createdate_epoch.2 (Fetch.ok { results := some [ "A", "B" ] }) cfEpoch
      [ mkMockCourse 5 "B", mkMockCourse 0 "A" ] 1 0 (by decide) (by decide)
      (by decide) (by decide) (by decide)⟩
